import Mathlib

/-!
Verification of the scoring, ranking, custom-indicator and influence-matrix
arithmetic of the Sustainability_Assessment repository.

The Python source is shallowly embedded: DataFrames become lists of typed
rows, numeric columns become rationals, pandas column arithmetic becomes
per-row functions, and a float computation that produces NaN (division by
zero in a min-max normalization with max == min) is modelled as `none` of an
`Option` result.  File reads that may raise FileNotFoundError take an
`Option` file content.  Streamlit UI plumbing (widgets, CSS, charts) is not
modelled; only the values it feeds into the arithmetic are, as explicit
parameters.
-/

/-- A row of the default-template city table: the `City` / `Country`
identifiers plus the nine template indicator columns used by
`calculate_comprehensive_rankings` (src/ranking.py) and
`calculate_sustainability_scores` (src/flexible_analysis.py). -/
structure CityRow where
  City : String
  Country : String
  Air_Quality : ℚ
  Green_Space : ℚ
  Renewable_Energy : ℚ
  Education_Index : ℚ
  Healthcare_Access : ℚ
  Safety_Index : ℚ
  GDP_per_Capita : ℚ
  Unemployment_Rate : ℚ
  Innovation_Index : ℚ
deriving DecidableEq

namespace Ranking

/-- src/ranking.py line 87: `df['Air_Quality_norm'] = df['Air_Quality'] / 100`. -/
def Air_Quality_norm (r : CityRow) : ℚ := r.Air_Quality / 100

/-- src/ranking.py line 88: `df['Green_Space_norm'] = df['Green_Space'] / 100`. -/
def Green_Space_norm (r : CityRow) : ℚ := r.Green_Space / 100

/-- src/ranking.py line 89: `df['Renewable_Energy_norm'] = df['Renewable_Energy'] / 100`. -/
def Renewable_Energy_norm (r : CityRow) : ℚ := r.Renewable_Energy / 100

/-- src/ranking.py line 92: `df['Education_norm'] = df['Education_Index']` (already 0-1). -/
def Education_norm (r : CityRow) : ℚ := r.Education_Index

/-- src/ranking.py line 93: `df['Healthcare_norm'] = df['Healthcare_Access'] / 100`. -/
def Healthcare_norm (r : CityRow) : ℚ := r.Healthcare_Access / 100

/-- src/ranking.py line 94: `df['Safety_norm'] = df['Safety_Index'] / 10`. -/
def Safety_norm (r : CityRow) : ℚ := r.Safety_Index / 10

/-- The `GDP_per_Capita` column of the table. -/
def gdpColumn (df : List CityRow) : List ℚ := df.map (fun r => r.GDP_per_Capita)

/-- src/ranking.py line 97:
`df['GDP_norm'] = (df['GDP_per_Capita'] - min) / (max - min)` over the
dataset column.  There is no guard for `max == min`: pandas then evaluates
`0 / 0`, a float NaN, which this embedding models as `none`.  An empty
table (min/max of nothing) is likewise `none`. -/
def GDP_norm (df : List CityRow) (r : CityRow) : Option ℚ :=
  match (gdpColumn df).min?, (gdpColumn df).max? with
  | some mn, some mx =>
      if mx = mn then none
      else some ((r.GDP_per_Capita - mn) / (mx - mn))
  | _, _ => none

/-- src/ranking.py line 98: `df['Employment_norm'] = (50 - df['Unemployment_Rate']) / 50`. -/
def Employment_norm (r : CityRow) : ℚ := (50 - r.Unemployment_Rate) / 50

/-- src/ranking.py line 99: `df['Innovation_norm'] = df['Innovation_Index'] / 100`. -/
def Innovation_norm (r : CityRow) : ℚ := r.Innovation_Index / 100

/-- src/ranking.py line 102: the environmental dimension score,
`(Air_Quality_norm + Green_Space_norm + Renewable_Energy_norm) / 3`. -/
def Environmental_Score (r : CityRow) : ℚ :=
  (Air_Quality_norm r + Green_Space_norm r + Renewable_Energy_norm r) / 3

/-- src/ranking.py line 103: the social dimension score,
`(Education_norm + Healthcare_norm + Safety_norm) / 3`. -/
def Social_Score (r : CityRow) : ℚ :=
  (Education_norm r + Healthcare_norm r + Safety_norm r) / 3

/-- src/ranking.py line 104: the economic dimension score,
`(GDP_norm + Employment_norm + Innovation_norm) / 3`; NaN (undefined
`GDP_norm`) propagates. -/
def Economic_Score (df : List CityRow) (r : CityRow) : Option ℚ :=
  (GDP_norm df r).map (fun g => (g + Employment_norm r + Innovation_norm r) / 3)

/-- src/ranking.py line 107: the overall score,
`(Environmental_Score + Social_Score + Economic_Score) / 3`; NaN propagates. -/
def Overall_Score (df : List CityRow) (r : CityRow) : Option ℚ :=
  (Economic_Score df r).map (fun ec => (Environmental_Score r + Social_Score r + ec) / 3)

/-- Embedding of `Series.rank(ascending=False, method='min')` applied to one
value of the series (src/ranking.py lines 110-113 and 359): the rank of a
value is one more than the number of series entries strictly greater than
it, so the greatest value gets rank 1 and tied values share the lowest rank
of their group.  pandas returns the rank as a float; the embedding uses ℕ. -/
def rankMinDesc (scores : List ℚ) (x : ℚ) : ℕ :=
  1 + (scores.filter (fun y => x < y)).length

/-- The whole rank column produced by `Series.rank(ascending=False,
method='min')`: every entry is ranked against the full series. -/
def seriesRankMinDesc (scores : List ℚ) : List ℕ :=
  scores.map (rankMinDesc scores)

/-- src/ranking.py lines 345-357 (`show_custom_weighted_ranking`): the three
slider weights are normalized to sum to 1 and the custom score is the
weighted sum of the three dimension scores.  When the weight total is not
positive the code computes nothing (the `if total_weight > 0` branch is
skipped), modelled as `none`. -/
def Custom_Score (envW socW ecoW e s ec : ℚ) : Option ℚ :=
  if 0 < envW + socW + ecoW then
    some (e * (envW / (envW + socW + ecoW)) +
          s * (socW / (envW + socW + ecoW)) +
          ec * (ecoW / (envW + socW + ecoW)))
  else none

end Ranking

namespace FlexibleAnalysis

/-- src/flexible_analysis.py lines 567-574 (`calculate_sustainability_scores`):
environmental score `(Air_Quality/100 + Green_Space/100 + Renewable_Energy/100) / 3`.
The embedding covers tables having all nine template columns (the typed row),
so the `all(col in df.columns)` guard is satisfied. -/
def Environmental_Score (r : CityRow) : ℚ :=
  (r.Air_Quality / 100 + r.Green_Space / 100 + r.Renewable_Energy / 100) / 3

/-- src/flexible_analysis.py lines 577-582: social score
`(Education_Index + Healthcare_Access/100 + Safety_Index/10) / 3`. -/
def Social_Score (r : CityRow) : ℚ :=
  (r.Education_Index + r.Healthcare_Access / 100 + r.Safety_Index / 10) / 3

/-- src/flexible_analysis.py lines 586-593: economic score
`(GDP_per_Capita/max_gdp + Innovation_Index/100 + (50 - Unemployment_Rate)/50) / 3`.
A zero (or undefined) column maximum makes the division a float
non-number, modelled as `none`. -/
def Economic_Score (df : List CityRow) (r : CityRow) : Option ℚ :=
  match (Ranking.gdpColumn df).max? with
  | some mx =>
      if mx = 0 then none
      else some ((r.GDP_per_Capita / mx + r.Innovation_Index / 100 +
                  (50 - r.Unemployment_Rate) / 50) / 3)
  | none => none

/-- src/flexible_analysis.py lines 598-602: overall score
`(Environmental_Score + Social_Score + Economic_Score) / 3`. -/
def Overall_Score (df : List CityRow) (r : CityRow) : Option ℚ :=
  (Economic_Score df r).map (fun ec => (Environmental_Score r + Social_Score r + ec) / 3)

end FlexibleAnalysis

/-- An example template table used to instantiate proved theorems. -/
def exR1 : CityRow := ⟨"Paris", "France", 80, 60, 40, 9/10, 85, 8, 50000, 10, 70⟩

/-- Second row of the example template table. -/
def exR2 : CityRow := ⟨"Lyon", "France", 70, 50, 30, 8/10, 75, 7, 40000, 12, 60⟩

/-- The example template table. -/
def exDf : List CityRow := [exR1, exR2]

namespace FlexibleSpiderPlot

/-- src/flexible_spider_plot.py lines 368-384 (`normalize_custom_indicators`),
action on one pivot column: min-max normalization to 0-100 with the guarded
degenerate case, `if max_val > min_val: ((v - min)/(max - min))*100 else: 50`. -/
def normalize_custom_column (xs : List ℚ) : List ℚ :=
  match xs.min?, xs.max? with
  | some mn, some mx =>
      if mn < mx then xs.map (fun v => ((v - mn) / (mx - mn)) * 100)
      else xs.map (fun _ => 50)
  | _, _ => xs.map (fun _ => 50)

end FlexibleSpiderPlot

namespace SpiderPlot

/-- src/spider_plot.py lines 84-90 (`normalize_data_for_spider`, the
`scale is None` branch used for `GDP_per_Capita`): unguarded min-max
normalization `((v - min)/(max - min)) * 100` over the column.  When
`max == min` pandas evaluates `0 / 0`, a float NaN, modelled as `none`. -/
def minmax_normalized (xs : List ℚ) (v : ℚ) : Option ℚ :=
  match xs.min?, xs.max? with
  | some mn, some mx =>
      if mx = mn then none
      else some (((v - mn) / (mx - mn)) * 100)
  | _, _ => none

end SpiderPlot

/-- A row of the custom-indicators long table as used by the flexible
ranking computations: one (city, indicator, value) observation. -/
structure IndicatorRow where
  City : String
  Indicator_Name : String
  Value : ℚ
deriving DecidableEq

namespace FlexibleRanking

/-- Guarded min-max normalization to 0-100 shared by
`calculate_weighted_scores`, `calculate_overall_scores` and
`calculate_category_scores` (src/flexible_ranking.py):
`if max_val > min_val: ((v - min)/(max - min))*100 else: 50`.
The `vals` list is never empty on the call path (it always contains the
value being normalized); the catch-all arm is unreachable there. -/
def minmax_norm_50 (vals : List ℚ) (v : ℚ) : ℚ :=
  match vals.min?, vals.max? with
  | some mn, some mx => if mn < mx then ((v - mn) / (mx - mn)) * 100 else 50
  | _, _ => 50

/-- The `Value` column restricted to one indicator name across all cities
(src/flexible_ranking.py lines 488-490). -/
def indicator_values (data : List IndicatorRow) (name : String) : List ℚ :=
  (data.filter (fun r => r.Indicator_Name = name)).map (fun r => r.Value)

/-- The min-max-normalized value of one observation, normalized across all
cities for its indicator (src/flexible_ranking.py lines 486-497). -/
def normalized_value (data : List IndicatorRow) (r : IndicatorRow) : ℚ :=
  minmax_norm_50 (indicator_values data r.Indicator_Name) r.Value

/-- The rows of one city (src/flexible_ranking.py line 477). -/
def city_rows (data : List IndicatorRow) (city : String) : List IndicatorRow :=
  data.filter (fun r => r.City = city)

/-- The rows of one city whose indicator carries a strictly positive weight;
only these contribute to the accumulators (src/flexible_ranking.py line 486,
`if weight > 0`).  Weights are looked up with default 0
(`weights.get(indicator, 0)`), modelled by the weight function itself. -/
def positive_weight_rows (data : List IndicatorRow) (weights : String → ℚ)
    (city : String) : List IndicatorRow :=
  (city_rows data city).filter (fun r => 0 < weights r.Indicator_Name)

/-- The accumulated `total_weight` of one city (src/flexible_ranking.py
lines 479, 499). -/
def total_weight (data : List IndicatorRow) (weights : String → ℚ)
    (city : String) : ℚ :=
  ((positive_weight_rows data weights city).map
    (fun r => weights r.Indicator_Name)).sum

/-- The accumulated `total_weighted_score` of one city
(src/flexible_ranking.py lines 478, 498). -/
def total_weighted_score (data : List IndicatorRow) (weights : String → ℚ)
    (city : String) : ℚ :=
  ((positive_weight_rows data weights city).map
    (fun r => normalized_value data r * weights r.Indicator_Name)).sum

/-- One city's entry of the `city_scores` dict (src/flexible_ranking.py
lines 501-502): the city is added only when its total weight is positive,
with score `total_weighted_score / total_weight`; otherwise it is absent. -/
def city_weighted_score (data : List IndicatorRow) (weights : String → ℚ)
    (city : String) : Option ℚ :=
  if 0 < total_weight data weights city then
    some (total_weighted_score data weights city / total_weight data weights city)
  else none

/-- Helper for `pd.unique` order: first occurrences, in order, of the items
not already seen. -/
def unique_firstAux (seen : List String) : List String → List String
  | [] => []
  | a :: t => if a ∈ seen then unique_firstAux seen t
              else a :: unique_firstAux (a :: seen) t

/-- `indicators_data['City'].unique()` (src/flexible_ranking.py line 474):
the city names in first-occurrence order. -/
def unique_cities (data : List IndicatorRow) : List String :=
  unique_firstAux [] (data.map (fun r => r.City))

/-- Descending insertion into a (city, score) list sorted by score. -/
def insertDescBy (a : String × ℚ) : List (String × ℚ) → List (String × ℚ)
  | [] => [a]
  | b :: t => if b.2 ≤ a.2 then a :: b :: t else b :: insertDescBy a t

/-- `Series.sort_values(ascending=False)` on a (city, score) series
(src/flexible_ranking.py line 505).  pandas does not specify the relative
order of tied scores; this embedding keeps the earlier element first. -/
def sort_values_desc (xs : List (String × ℚ)) : List (String × ℚ) :=
  xs.foldr insertDescBy []

/-- src/flexible_ranking.py lines 469-508 (`calculate_weighted_scores`): the
per-city weighted scores of the cities whose total weight is positive,
sorted by descending score. -/
def calculate_weighted_scores (data : List IndicatorRow)
    (weights : String → ℚ) : List (String × ℚ) :=
  sort_values_desc ((unique_cities data).filterMap
    (fun c => (city_weighted_score data weights c).map (fun s => (c, s))))

/-- src/flexible_ranking.py lines 510-536 (`display_ranking_cards`): the
cards enumerate the sorted score series with `enumerate(scores.items(), 1)`,
so the displayed rank of a city is simply its 1-based position in the
descending order, with no tie handling. -/
def display_ranking_cards (scores : List (String × ℚ)) :
    List (ℕ × String × ℚ) :=
  ((List.range scores.length).zip scores).map (fun p => (p.1 + 1, p.2))

end FlexibleRanking

/-- A custom-indicator table with two cities tied on their one indicator,
used to exercise the ranking-card enumeration. -/
def exTieData : List IndicatorRow := [⟨"A", "I", 1⟩, ⟨"B", "I", 1⟩]

/-- A custom-indicator table with two cities and two indicators, used to
instantiate the weighted-score theorems. -/
def exWData : List IndicatorRow :=
  [⟨"A", "I1", 0⟩, ⟨"A", "I2", 10⟩, ⟨"B", "I1", 10⟩, ⟨"B", "I2", 0⟩]


namespace InfluenceMatrix

/-- The selectbox option list for an off-diagonal influence cell
(src/influence_matrix.py line 158): `options=[-2, -1, 0, 1, 2]`. -/
def option_values : List ℤ := [-2, -1, 0, 1, 2]

/-- src/influence_matrix.py lines 121-125: the working matrix starts as a
copy of a previously loaded matrix, or as `np.zeros` when none exists. -/
def initial_matrix (n : ℕ) (existing : Option (Fin n → Fin n → ℤ)) :
    Fin n → Fin n → ℤ :=
  existing.getD (fun _ _ => 0)

/-- src/influence_matrix.py lines 117-167 (`create_influence_matrix_input`):
the entry loop visits every cell, forcing each diagonal cell to 0 and
setting each off-diagonal cell to the option the user picked in its
selectbox (modelled by `selection`, an index into `option_values`).  Since
every cell is overwritten, the previously loaded matrix only seeds the
widget defaults and does not reach the result. -/
def create_influence_matrix_input (n : ℕ)
    (existing : Option (Fin n → Fin n → ℤ))
    (selection : Fin n → Fin n → Fin 5) : Fin n → Fin n → ℤ :=
  fun i j => if i = j then 0 else option_values.getD (selection i j).val 0

/-- src/influence_matrix.py line 229:
`activity_scores = np.sum(np.abs(matrix), axis=1)`, the row-wise sums of
absolute values. -/
def activity_scores (n : ℕ) (M : Fin n → Fin n → ℤ) (i : Fin n) : ℤ :=
  ((List.finRange n).map (fun j => |M i j|)).sum

/-- src/influence_matrix.py line 230:
`passivity_scores = np.sum(np.abs(matrix), axis=0)`, the column-wise sums
of absolute values. -/
def passivity_scores (n : ℕ) (M : Fin n → Fin n → ℤ) (i : Fin n) : ℤ :=
  ((List.finRange n).map (fun j => |M j i|)).sum

/-- Ascending insertion, used to model the sort underlying `Series.median`. -/
def insertAsc (a : ℚ) : List ℚ → List ℚ
  | [] => [a]
  | b :: t => if a ≤ b then a :: b :: t else b :: insertAsc a t

/-- An ascending sort of a list of rationals. -/
def sortAsc (xs : List ℚ) : List ℚ := xs.foldr insertAsc []

/-- `Series.median()` as used for the quadrant thresholds
(src/influence_matrix.py lines 395-396): the middle element of the sorted
column for odd length, the mean of the two middle elements for even
length. -/
def pandasMedian (xs : List ℚ) : ℚ :=
  if xs.length % 2 = 1 then (sortAsc xs).getD (xs.length / 2) 0
  else ((sortAsc xs).getD (xs.length / 2 - 1) 0
        + (sortAsc xs).getD (xs.length / 2) 0) / 2

/-- The `Activity` column of `results_df` (integer scores viewed as the
float column pandas holds). -/
def activity_column (n : ℕ) (M : Fin n → Fin n → ℤ) : List ℚ :=
  (List.finRange n).map (fun i => (activity_scores n M i : ℚ))

/-- The `Passivity` column of `results_df`. -/
def passivity_column (n : ℕ) (M : Fin n → Fin n → ℤ) : List ℚ :=
  (List.finRange n).map (fun i => (passivity_scores n M i : ℚ))

/-- `median_activity = results_df['Activity'].median()`
(src/influence_matrix.py line 395). -/
def median_activity (n : ℕ) (M : Fin n → Fin n → ℤ) : ℚ :=
  pandasMedian (activity_column n M)

/-- `median_passivity = results_df['Passivity'].median()`
(src/influence_matrix.py line 396). -/
def median_passivity (n : ℕ) (M : Fin n → Fin n → ℤ) : ℚ :=
  pandasMedian (passivity_column n M)

/-- The four quadrants of the activity-passivity plot. -/
inductive Quadrant
  | ambivalent
  | active
  | passive
  | indifferent
deriving DecidableEq

/-- The four quadrant filters of `show_quadrant_analysis`
(src/influence_matrix.py lines 399-415), as predicates on an
activity/passivity pair against the two median thresholds. -/
def inQuadrant (q : Quadrant) (medA medP a p : ℚ) : Prop :=
  match q with
  | .ambivalent => medP < p ∧ medA < a
  | .active => p ≤ medP ∧ medA < a
  | .passive => medP < p ∧ a ≤ medA
  | .indifferent => p ≤ medP ∧ a ≤ medA

/-- src/influence_matrix.py lines 192-202 (`load_influence_matrix`): reading
the CSV returns its matrix; a missing file (FileNotFoundError) returns
`None`.  The possibly-absent file content is the `Option` argument. -/
def load_influence_matrix (n : ℕ) (file : Option (Fin n → Fin n → ℤ)) :
    Option (Fin n → Fin n → ℤ) := file

end InfluenceMatrix

/-- A 3x3 example influence matrix with row abs-sums 1, 2, 3 and column
abs-sums 1, 3, 2. -/
def exM3 : Fin 3 → Fin 3 → ℤ :=
  fun i j => (([[0, 1, 0], [0, 0, 2], [1, 2, 0]].getD i.val []).getD j.val 0 : ℤ)

namespace CustomIndicators

/-- One stored custom-indicator record (src/custom_indicators.py lines
265-275): city, country, indicator name, description, numeric value, unit,
source and category.  The `Data_Entry_Date` wall-clock timestamp is not
modelled. -/
structure Entry where
  City : String
  Country : String
  Indicator_Name : String
  Description : String
  Value : ℚ
  Unit : String
  Source : String
  Category : String
deriving DecidableEq

/-- Python `str.strip()` on the underlying character list: drop leading and
trailing whitespace. -/
def pyStripList (s : List Char) : List Char :=
  ((s.dropWhile Char.isWhitespace).reverse.dropWhile Char.isWhitespace).reverse

/-- Python `str.strip()`. -/
def pyStrip (s : String) : String := String.mk (pyStripList s.data)

/-- src/custom_indicators.py lines 359-370 (`load_custom_indicators_data`):
reading the CSV returns its rows; a missing file (FileNotFoundError)
returns an empty DataFrame. -/
def load_custom_indicators_data (file : Option (List Entry)) : List Entry :=
  file.getD []

/-- src/custom_indicators.py line 191: the stored indicators of one city. -/
def city_indicators (store : List Entry) (city : String) : List Entry :=
  store.filter (fun e => e.City = city)

/-- The error reported by the entry form on a rejected submission. -/
inductive SubmitError
  | missingFields
  | duplicateName
deriving DecidableEq

/-- src/custom_indicators.py lines 255-280 (submission handling in
`show_city_indicator_entry`) together with `add_custom_indicator` (lines
283-301): a submission is rejected with an error when a required text field
is blank after stripping, or when the raw submitted name already occurs
among the names stored for that city; otherwise the stripped entry is
appended to the store.  (The duplicate check compares the unstripped
submitted name against the stored, already stripped, names.) -/
def submit_indicator (store : List Entry) (city country name description : String)
    (value : ℚ) (unit source category : String) :
    Except SubmitError (List Entry) :=
  if pyStrip name = "" ∨ pyStrip description = ""
      ∨ pyStrip unit = "" ∨ pyStrip source = "" then
    .error .missingFields
  else if (city_indicators store city).any (fun e => e.Indicator_Name = name) then
    .error .duplicateName
  else
    .ok (store ++ [⟨city, country, pyStrip name, pyStrip description, value,
                    pyStrip unit, pyStrip source, category⟩])

end CustomIndicators

/-- An example custom-indicator store holding one indicator for Lyon. -/
def exStore : List CustomIndicators.Entry :=
  [⟨"Lyon", "France", "GDP", "gross domestic product", 1, "USD", "UN", "Economic"⟩]

/-- C1: for the default template, each dimension score is the arithmetic mean
of its three member normalized metrics, and the overall score is the
arithmetic mean of the three dimension scores, in both implementations
(`calculate_comprehensive_rankings` in src/ranking.py and
`calculate_sustainability_scores` in src/flexible_analysis.py); the economic
and overall equations are stated on the defined (non-NaN) values. -/
theorem C1_template_scores_are_means (df : List CityRow) (r : CityRow) :
    Ranking.Environmental_Score r
        = (Ranking.Air_Quality_norm r + Ranking.Green_Space_norm r
            + Ranking.Renewable_Energy_norm r) / 3
    ∧ Ranking.Social_Score r
        = (Ranking.Education_norm r + Ranking.Healthcare_norm r
            + Ranking.Safety_norm r) / 3
    ∧ (∀ g, Ranking.GDP_norm df r = some g →
        Ranking.Economic_Score df r
          = some ((g + Ranking.Employment_norm r + Ranking.Innovation_norm r) / 3))
    ∧ (∀ ec, Ranking.Economic_Score df r = some ec →
        Ranking.Overall_Score df r
          = some ((Ranking.Environmental_Score r + Ranking.Social_Score r + ec) / 3))
    ∧ FlexibleAnalysis.Environmental_Score r
        = (Ranking.Air_Quality_norm r + Ranking.Green_Space_norm r
            + Ranking.Renewable_Energy_norm r) / 3
    ∧ FlexibleAnalysis.Social_Score r
        = (Ranking.Education_norm r + Ranking.Healthcare_norm r
            + Ranking.Safety_norm r) / 3
    ∧ (∀ ec, FlexibleAnalysis.Economic_Score df r = some ec →
        FlexibleAnalysis.Overall_Score df r
          = some ((FlexibleAnalysis.Environmental_Score r
              + FlexibleAnalysis.Social_Score r + ec) / 3)) := by
  refine ⟨rfl, rfl, ?_, ?_, ?_, ?_, ?_⟩
  · intro g hg
    simp [Ranking.Economic_Score, hg]
  · intro ec hec
    simp [Ranking.Overall_Score, hec]
  · simp [FlexibleAnalysis.Environmental_Score, Ranking.Air_Quality_norm,
      Ranking.Green_Space_norm, Ranking.Renewable_Energy_norm]
  · simp [FlexibleAnalysis.Social_Score, Ranking.Education_norm,
      Ranking.Healthcare_norm, Ranking.Safety_norm]
  · intro ec hec
    simp [FlexibleAnalysis.Overall_Score, hec]

/-- Witness for C1: the economic and overall score equations hold at the
concrete example table, with the hypotheses evaluated there. -/
theorem C1_witness :
    Ranking.Economic_Score exDf exR1
        = some ((1 + Ranking.Employment_norm exR1 + Ranking.Innovation_norm exR1) / 3)
    ∧ Ranking.Overall_Score exDf exR1
        = some ((Ranking.Environmental_Score exR1 + Ranking.Social_Score exR1 + 5/6) / 3) := by
  have h := C1_template_scores_are_means exDf exR1
  refine ⟨h.2.2.1 1 ?_, h.2.2.2.1 (5/6) ?_⟩
  · norm_num [Ranking.GDP_norm, Ranking.gdpColumn, exDf, exR1, exR2,
      List.min?, List.max?]
  · norm_num [Ranking.Economic_Score, Ranking.GDP_norm, Ranking.gdpColumn,
      Ranking.Employment_norm, Ranking.Innovation_norm, exDf, exR1, exR2,
      List.min?, List.max?]

/-- C2 counterexample: on the column `[10, 10]` (max == min) the unguarded
min-max normalization of src/spider_plot.py produces an undefined value
(NaN, embedded as `none`), not the midpoint 50 the claim asserts for every
min-max-normalized metric. -/
theorem C2_counterexample :
    SpiderPlot.minmax_normalized [10, 10] 10 = none
    ∧ SpiderPlot.minmax_normalized [10, 10] 10 ≠ some 50 := by
  have h : SpiderPlot.minmax_normalized [10, 10] 10 = none := by
    norm_num [SpiderPlot.minmax_normalized, List.min?, List.max?]
  exact ⟨h, by simp [h]⟩

/-- C2 amended: the degenerate-case midpoint 50 holds for the guarded
custom-indicator normalizer (`normalize_custom_indicators`,
src/flexible_spider_plot.py), which otherwise applies
`((v - min)/(max - min)) * 100`; the unguarded min-max sites
(`normalize_data_for_spider` in src/spider_plot.py and `GDP_norm` in
src/ranking.py, the latter without the `* 100`) leave the value undefined
(NaN) when max == min and otherwise apply the same formula. -/
theorem C2_minmax_normalization_cases (xs : List ℚ) (v mn mx : ℚ)
    (df : List CityRow) (r : CityRow)
    (hmn : xs.min? = some mn) (hmx : xs.max? = some mx) :
    (mx = mn →
      FlexibleSpiderPlot.normalize_custom_column xs = xs.map (fun _ => 50))
    ∧ (mn < mx →
      FlexibleSpiderPlot.normalize_custom_column xs
        = xs.map (fun v => ((v - mn) / (mx - mn)) * 100))
    ∧ (mx = mn → SpiderPlot.minmax_normalized xs v = none)
    ∧ (mn < mx →
      SpiderPlot.minmax_normalized xs v = some (((v - mn) / (mx - mn)) * 100))
    ∧ (∀ gmn gmx, (Ranking.gdpColumn df).min? = some gmn →
        (Ranking.gdpColumn df).max? = some gmx → gmx = gmn →
        Ranking.GDP_norm df r = none) := by
  refine ⟨?_, ?_, ?_, ?_, ?_⟩
  · intro h
    simp [FlexibleSpiderPlot.normalize_custom_column, hmn, hmx, h]
  · intro h
    simp [FlexibleSpiderPlot.normalize_custom_column, hmn, hmx, h, ne_of_gt h]
  · intro h
    simp [SpiderPlot.minmax_normalized, hmn, hmx, h]
  · intro h
    have hne : mx ≠ mn := (ne_of_lt h).symm
    simp [SpiderPlot.minmax_normalized, hmn, hmx, hne]
  · intro gmn gmx hgmn hgmx h
    simp [Ranking.GDP_norm, hgmn, hgmx, h]

/-- Witness for C2 amended: concrete evaluations of every case, including
the guarded normalizer returning 50 on a constant column and the formula on
a non-constant one. -/
theorem C2_witness :
    FlexibleSpiderPlot.normalize_custom_column [10, 10] = [50, 50]
    ∧ FlexibleSpiderPlot.normalize_custom_column [0, 10]
        = [((0 - 0) / (10 - 0)) * 100, ((10 - 0) / (10 - 0)) * 100]
    ∧ SpiderPlot.minmax_normalized [10, 10] 10 = none
    ∧ SpiderPlot.minmax_normalized [0, 10] 5 = some (((5 - 0) / (10 - 0)) * 100)
    ∧ Ranking.GDP_norm [exR1, exR1] exR1 = none := by
  have h1 := C2_minmax_normalization_cases [10, 10] 10 10 10 [exR1, exR1] exR1
    (by norm_num [List.min?]) (by norm_num [List.max?])
  have h2 := C2_minmax_normalization_cases [0, 10] 5 0 10 [exR1, exR1] exR1
    (by norm_num [List.min?]) (by norm_num [List.max?])
  refine ⟨h1.1 rfl, h2.2.1 (by norm_num), h1.2.2.1 rfl,
    h2.2.2.2.1 (by norm_num), h1.2.2.2.2 50000 50000 ?_ ?_ rfl⟩
  · norm_num [Ranking.gdpColumn, exR1, List.min?]
  · norm_num [Ranking.gdpColumn, exR1, List.max?]

theorem length_filter_le_split (x : ℚ) (l : List ℚ) :
    (l.filter (fun y => x ≤ y)).length
      = (l.filter (fun y => x < y)).length + (l.filter (fun y => y = x)).length := by
  induction l with
  | nil => simp
  | cons a t ih =>
    simp only [List.filter_cons]
    rcases lt_trichotomy a x with h | h | h
    · rw [if_neg (by simp [not_le.mpr h]), if_neg (by simp [not_lt.mpr h.le]),
        if_neg (by simp [h.ne])]
      exact ih
    · subst h
      rw [if_pos (by simp), if_neg (by simp), if_pos (by simp)]
      simp only [List.length_cons]
      omega
    · rw [if_pos (by simp [h.le]), if_pos (by simp [h]),
        if_neg (by simp [ne_of_gt h])]
      simp only [List.length_cons]
      omega

theorem mem_insertDescBy (a b : String × ℚ) (l : List (String × ℚ)) :
    a ∈ FlexibleRanking.insertDescBy b l ↔ a = b ∨ a ∈ l := by
  induction l with
  | nil => simp [FlexibleRanking.insertDescBy]
  | cons c t ih =>
    by_cases h : c.2 ≤ b.2
    · simp [FlexibleRanking.insertDescBy, h]
    · simp [FlexibleRanking.insertDescBy, h, ih]
      tauto

theorem mem_sort_values_desc (a : String × ℚ) (l : List (String × ℚ)) :
    a ∈ FlexibleRanking.sort_values_desc l ↔ a ∈ l := by
  induction l with
  | nil => simp [FlexibleRanking.sort_values_desc]
  | cons c t ih =>
    simp only [FlexibleRanking.sort_values_desc, List.foldr_cons] at ih ⊢
    rw [mem_insertDescBy, ih, List.mem_cons]

theorem mem_unique_firstAux (c : String) (seen l : List String) :
    c ∈ FlexibleRanking.unique_firstAux seen l ↔ c ∈ l ∧ c ∉ seen := by
  induction l generalizing seen with
  | nil => simp [FlexibleRanking.unique_firstAux]
  | cons a t ih =>
    simp only [FlexibleRanking.unique_firstAux]
    by_cases h : a ∈ seen
    · simp only [if_pos h, ih, List.mem_cons]
      by_cases hca : c = a
      · subst hca
        simp [h]
      · simp [hca]
    · simp only [if_neg h, List.mem_cons, ih, List.mem_cons]
      by_cases hca : c = a
      · subst hca
        simp [h]
      · simp [hca]

theorem mem_unique_cities (c : String) (data : List IndicatorRow) :
    c ∈ FlexibleRanking.unique_cities data ↔ c ∈ data.map (fun r => r.City) := by
  rw [FlexibleRanking.unique_cities, mem_unique_firstAux]
  simp

/-- C3 counterexample: with two cities tied on the same weighted score, the
custom-indicator ranking cards of `display_ranking_cards`
(src/flexible_ranking.py) assign the sequential positions 1 and 2, not the
shared minimum rank 1 the claim asserts for every tied group. -/
theorem C3_counterexample :
    FlexibleRanking.display_ranking_cards
        (FlexibleRanking.calculate_weighted_scores exTieData (fun _ => 1))
      = [(1, ("A", 50)), (2, ("B", 50))]
    ∧ FlexibleRanking.display_ranking_cards
        (FlexibleRanking.calculate_weighted_scores exTieData (fun _ => 1))
      ≠ [(1, ("A", 50)), (1, ("B", 50))] := by
  have hba : ("B" : String) ≠ "A" := by decide
  have hab : ("A" : String) ≠ "B" := by decide
  have h : FlexibleRanking.calculate_weighted_scores exTieData (fun _ => 1)
      = [("A", 50), ("B", 50)] := by
    norm_num [hba, hab, FlexibleRanking.calculate_weighted_scores, exTieData,
      FlexibleRanking.unique_cities, FlexibleRanking.unique_firstAux,
      FlexibleRanking.city_weighted_score, FlexibleRanking.total_weight,
      FlexibleRanking.total_weighted_score, FlexibleRanking.positive_weight_rows,
      FlexibleRanking.city_rows, FlexibleRanking.normalized_value,
      FlexibleRanking.minmax_norm_50, FlexibleRanking.indicator_values,
      List.min?, List.max?, FlexibleRanking.sort_values_desc,
      FlexibleRanking.insertDescBy, List.filterMap_cons, List.filterMap_nil,
      List.filter_cons, List.filter_nil]
  have h2 : FlexibleRanking.display_ranking_cards [("A", (50:ℚ)), ("B", 50)]
      = [(1, ("A", 50)), (2, ("B", 50))] := by
    simp [FlexibleRanking.display_ranking_cards, List.range_succ]
  rw [h]
  exact ⟨h2, by simp [h2]⟩

/-- C3 amended: the minimum-rank semantics holds for the rankings computed
with `Series.rank(ascending=False, method='min')` (overall, per-dimension
and template-mode custom-weighted rankings in src/ranking.py): a maximal
score gets rank 1, tied entries share one rank, and the rank just below a
tied group skips exactly the size of the group (no rank is skipped inside
the group).  The custom-indicator ranking cards (`display_ranking_cards`,
src/flexible_ranking.py), however, number the sorted series positionally
1..n, so tied cities there receive distinct consecutive ranks. -/
theorem C3_rank_semantics (scores : List ℚ) (x z : ℚ)
    (pairs : List (String × ℚ)) :
    (x ∈ scores → (∀ y ∈ scores, y ≤ x) → Ranking.rankMinDesc scores x = 1)
    ∧ (∀ i j (hi : i < scores.length) (hj : j < scores.length),
        scores.get ⟨i, hi⟩ = scores.get ⟨j, hj⟩ →
        Ranking.rankMinDesc scores (scores.get ⟨i, hi⟩)
          = Ranking.rankMinDesc scores (scores.get ⟨j, hj⟩))
    ∧ (z < x → (∀ y ∈ scores, y < x → y ≤ z) →
        Ranking.rankMinDesc scores z
          = Ranking.rankMinDesc scores x
              + (scores.filter (fun y => y = x)).length)
    ∧ (FlexibleRanking.display_ranking_cards pairs).map (fun p => p.1)
        = List.range' 1 pairs.length := by
  refine ⟨?_, ?_, ?_, ?_⟩
  · intro _ hmax
    have hnil : scores.filter (fun y => x < y) = [] := by
      rw [List.filter_eq_nil_iff]
      intro a ha
      simp [not_lt.mpr (hmax a ha)]
    simp [Ranking.rankMinDesc, hnil]
  · intro i j hi hj hij
    rw [hij]
  · intro hzx hnext
    have hcong : scores.filter (fun y => z < y) = scores.filter (fun y => x ≤ y) := by
      apply List.filter_congr
      intro y hy
      simp only [decide_eq_decide]
      constructor
      · intro hzy
        by_contra hxy
        exact absurd (hnext y hy (not_le.mp hxy)) (not_le.mpr hzy)
      · intro hxy
        exact lt_of_lt_of_le hzx hxy
    simp only [Ranking.rankMinDesc, hcong, length_filter_le_split x scores]
    omega
  · rw [FlexibleRanking.display_ranking_cards, List.map_map]
    rw [show ((fun p : ℕ × String × ℚ => p.1)
          ∘ (fun p : ℕ × (String × ℚ) => (p.1 + 1, p.2)))
        = (fun k => k + 1) ∘ Prod.fst from rfl]
    rw [← List.map_map]
    rw [List.map_fst_zip _ _ (by simp)]
    rw [List.range'_eq_map_range]
    simp [Nat.add_comm]

/-- Witness for C3 amended: rank 1 for the top of `[50, 50, 30]`, the
next-group rank jump 1 + 2 = 3, and positional card ranks `[1, 2]` on a
two-element series, all instances of the theorem. -/
theorem C3_witness :
    Ranking.rankMinDesc [50, 50, 30] 50 = 1
    ∧ Ranking.rankMinDesc [50, 50, 30] 30
        = Ranking.rankMinDesc [50, 50, 30] 50
            + (([50, 50, 30] : List ℚ).filter (fun y => y = 50)).length
    ∧ (FlexibleRanking.display_ranking_cards [("A", 50), ("B", 50)]).map
        (fun p => p.1) = List.range' 1 2 := by
  have h := C3_rank_semantics [50, 50, 30] 50 30 [("A", (50:ℚ)), ("B", 50)]
  refine ⟨h.1 (by norm_num) ?_, h.2.2.1 (by norm_num) ?_, ?_⟩
  · intro y hy
    simp only [List.mem_cons, List.not_mem_nil, or_false] at hy
    rcases hy with rfl | rfl | rfl <;> norm_num
  · intro y hy hlt
    simp only [List.mem_cons, List.not_mem_nil, or_false] at hy
    rcases hy with rfl | rfl | rfl
    · norm_num at hlt
    · norm_num at hlt
    · norm_num
  · simpa using h.2.2.2


theorem sum_map_mul_right_list (l : List IndicatorRow)
    (f : IndicatorRow → ℚ) (c : ℚ) :
    (l.map (fun r => f r * c)).sum = (l.map f).sum * c := by
  induction l with
  | nil => simp
  | cons a t ih => simp [ih, add_mul]

/-- C4: computing the user-weighted score with all weights equal and positive
yields the unweighted arithmetic mean.  In template mode
(src/ranking.py, `show_custom_weighted_ranking`) the custom score with three
equal slider weights equals the overall score of
`calculate_comprehensive_rankings`; in custom-indicator mode
(src/flexible_ranking.py, `calculate_weighted_scores`) an equal positive
weight on every indicator gives each city the plain average of its
normalized indicator values. -/
theorem C4_equal_weights_reduce_to_mean (df : List CityRow) (r : CityRow)
    (data : List IndicatorRow) (city : String) (w c ec : ℚ) :
    (0 < w → Ranking.Economic_Score df r = some ec →
      Ranking.Custom_Score w w w (Ranking.Environmental_Score r)
          (Ranking.Social_Score r) ec
        = Ranking.Overall_Score df r)
    ∧ (0 < c → FlexibleRanking.city_rows data city ≠ [] →
      FlexibleRanking.city_weighted_score data (fun _ => c) city
        = some (((FlexibleRanking.city_rows data city).map
              (FlexibleRanking.normalized_value data)).sum
            / (FlexibleRanking.city_rows data city).length)) := by
  constructor
  · intro hw hec
    have h3 : (0:ℚ) < w + w + w := by linarith
    rw [Ranking.Custom_Score, if_pos h3, Ranking.Overall_Score, hec]
    simp only [Option.map_some']
    congr 1
    have hw' : w ≠ 0 := ne_of_gt hw
    field_simp
    ring
  · intro hc hne
    have hpos : FlexibleRanking.positive_weight_rows data (fun _ => c) city
        = FlexibleRanking.city_rows data city := by
      rw [FlexibleRanking.positive_weight_rows]
      apply List.filter_eq_self.mpr
      intro a _
      simp [hc]
    have hlen : (0:ℚ) < (FlexibleRanking.city_rows data city).length := by
      have := List.length_pos.mpr hne
      exact_mod_cast this
    have htw : FlexibleRanking.total_weight data (fun _ => c) city
        = (FlexibleRanking.city_rows data city).length * c := by
      rw [FlexibleRanking.total_weight, hpos]
      rw [List.map_const']
      rw [List.sum_replicate]
      rw [nsmul_eq_mul]
    have hts : FlexibleRanking.total_weighted_score data (fun _ => c) city
        = ((FlexibleRanking.city_rows data city).map
            (FlexibleRanking.normalized_value data)).sum * c := by
      rw [FlexibleRanking.total_weighted_score, hpos]
      rw [sum_map_mul_right_list]
    rw [FlexibleRanking.city_weighted_score, htw, hts]
    rw [if_pos (mul_pos hlen hc)]
    rw [mul_div_mul_right _ _ (ne_of_gt hc)]

/-- Witness for C4: equal weights 2 on the example template row give the
overall score, and equal weights 2 on the example custom table give city A
the plain average of its normalized values. -/
theorem C4_witness :
    Ranking.Custom_Score 2 2 2 (Ranking.Environmental_Score exR1)
        (Ranking.Social_Score exR1) (5/6)
      = Ranking.Overall_Score exDf exR1
    ∧ FlexibleRanking.city_weighted_score exWData (fun _ => 2) "A"
      = some (((FlexibleRanking.city_rows exWData "A").map
            (FlexibleRanking.normalized_value exWData)).sum
          / (FlexibleRanking.city_rows exWData "A").length) := by
  have h := C4_equal_weights_reduce_to_mean exDf exR1 exWData "A" 2 2 (5/6)
  refine ⟨h.1 (by norm_num) ?_, h.2 (by norm_num) ?_⟩
  · norm_num [Ranking.Economic_Score, Ranking.GDP_norm, Ranking.gdpColumn,
      Ranking.Employment_norm, Ranking.Innovation_norm, exDf, exR1, exR2,
      List.min?, List.max?]
  · have hba : ("B" : String) ≠ "A" := by decide
    have hrows : FlexibleRanking.city_rows exWData "A"
        = [⟨"A", "I1", 0⟩, ⟨"A", "I2", 10⟩] := by
      norm_num [FlexibleRanking.city_rows, exWData, List.filter_cons, hba]
    rw [hrows]
    simp

/-- C5: the activity score of indicator i is the row-wise sum of absolute
values of the influence matrix and its passivity score is the column-wise
sum, matching `np.sum(np.abs(matrix), axis=1)` and `axis=0` in
`show_influence_analysis` (src/influence_matrix.py). -/
theorem C5_activity_passivity_sums (n : ℕ) (M : Fin n → Fin n → ℤ) (i : Fin n) :
    InfluenceMatrix.activity_scores n M i = ∑ j, |M i j|
    ∧ InfluenceMatrix.passivity_scores n M i = ∑ j, |M j i| := by
  constructor
  · rw [Fin.sum_univ_def]
    rfl
  · rw [Fin.sum_univ_def]
    rfl

theorem quadrant_exists_unique (mA mP a p : ℚ) :
    ∃! q : InfluenceMatrix.Quadrant, InfluenceMatrix.inQuadrant q mA mP a p := by
  rcases le_or_lt a mA with hA | hA <;> rcases le_or_lt p mP with hP | hP
  · refine ⟨.indifferent, ⟨hP, hA⟩, ?_⟩
    intro q hq
    cases q <;> simp only [InfluenceMatrix.inQuadrant] at hq ⊢ <;>
      first
        | rfl
        | (exact absurd hq.2 (by linarith))
  · refine ⟨.passive, ⟨hP, hA⟩, ?_⟩
    intro q hq
    cases q <;> simp only [InfluenceMatrix.inQuadrant] at hq ⊢ <;>
      first
        | rfl
        | (exact absurd hq.2 (by linarith))
  · refine ⟨.active, ⟨hP, hA⟩, ?_⟩
    intro q hq
    cases q <;> simp only [InfluenceMatrix.inQuadrant] at hq ⊢ <;>
      first
        | rfl
        | (exact absurd hq.2 (by linarith))
  · refine ⟨.ambivalent, ⟨hP, hA⟩, ?_⟩
    intro q hq
    cases q <;> simp only [InfluenceMatrix.inQuadrant] at hq ⊢ <;>
      first
        | rfl
        | (exact absurd hq.2 (by linarith))

/-- C6: the quadrant filters of `show_quadrant_analysis`
(src/influence_matrix.py) partition the indicators: each indicator, with
its activity and passivity compared to the medians over all indicators,
falls into exactly one of the four quadrants, and an indicator sitting
exactly on the activity (resp. passivity) median is classified on the low
side of that axis. -/
theorem C6_quadrant_partition (n : ℕ) (M : Fin n → Fin n → ℤ) (i : Fin n) :
    (∃! q : InfluenceMatrix.Quadrant,
      InfluenceMatrix.inQuadrant q (InfluenceMatrix.median_activity n M)
        (InfluenceMatrix.median_passivity n M)
        ((InfluenceMatrix.activity_scores n M i : ℚ))
        ((InfluenceMatrix.passivity_scores n M i : ℚ)))
    ∧ (((InfluenceMatrix.activity_scores n M i : ℚ))
          = InfluenceMatrix.median_activity n M →
        InfluenceMatrix.inQuadrant .passive (InfluenceMatrix.median_activity n M)
          (InfluenceMatrix.median_passivity n M)
          ((InfluenceMatrix.activity_scores n M i : ℚ))
          ((InfluenceMatrix.passivity_scores n M i : ℚ))
        ∨ InfluenceMatrix.inQuadrant .indifferent
            (InfluenceMatrix.median_activity n M)
            (InfluenceMatrix.median_passivity n M)
            ((InfluenceMatrix.activity_scores n M i : ℚ))
            ((InfluenceMatrix.passivity_scores n M i : ℚ)))
    ∧ (((InfluenceMatrix.passivity_scores n M i : ℚ))
          = InfluenceMatrix.median_passivity n M →
        InfluenceMatrix.inQuadrant .active (InfluenceMatrix.median_activity n M)
          (InfluenceMatrix.median_passivity n M)
          ((InfluenceMatrix.activity_scores n M i : ℚ))
          ((InfluenceMatrix.passivity_scores n M i : ℚ))
        ∨ InfluenceMatrix.inQuadrant .indifferent
            (InfluenceMatrix.median_activity n M)
            (InfluenceMatrix.median_passivity n M)
            ((InfluenceMatrix.activity_scores n M i : ℚ))
            ((InfluenceMatrix.passivity_scores n M i : ℚ))) := by
  refine ⟨quadrant_exists_unique _ _ _ _, ?_, ?_⟩
  · intro hA
    rcases le_or_lt ((InfluenceMatrix.passivity_scores n M i : ℚ))
        (InfluenceMatrix.median_passivity n M) with hP | hP
    · exact Or.inr ⟨hP, le_of_eq hA⟩
    · exact Or.inl ⟨hP, le_of_eq hA⟩
  · intro hP
    rcases le_or_lt ((InfluenceMatrix.activity_scores n M i : ℚ))
        (InfluenceMatrix.median_activity n M) with hA | hA
    · exact Or.inr ⟨le_of_eq hP, hA⟩
    · exact Or.inl ⟨le_of_eq hP, hA⟩

/-- Witness for C6: indicator 1 of the example 3x3 matrix sits exactly on
the activity median (2) and has passivity 3 above the passivity median (2);
the theorem places it uniquely, on the low-activity side. -/
theorem C6_witness :
    (∃! q : InfluenceMatrix.Quadrant,
      InfluenceMatrix.inQuadrant q (InfluenceMatrix.median_activity 3 exM3)
        (InfluenceMatrix.median_passivity 3 exM3)
        ((InfluenceMatrix.activity_scores 3 exM3 1 : ℚ))
        ((InfluenceMatrix.passivity_scores 3 exM3 1 : ℚ)))
    ∧ (InfluenceMatrix.inQuadrant .passive (InfluenceMatrix.median_activity 3 exM3)
        (InfluenceMatrix.median_passivity 3 exM3)
        ((InfluenceMatrix.activity_scores 3 exM3 1 : ℚ))
        ((InfluenceMatrix.passivity_scores 3 exM3 1 : ℚ))
      ∨ InfluenceMatrix.inQuadrant .indifferent
          (InfluenceMatrix.median_activity 3 exM3)
          (InfluenceMatrix.median_passivity 3 exM3)
          ((InfluenceMatrix.activity_scores 3 exM3 1 : ℚ))
          ((InfluenceMatrix.passivity_scores 3 exM3 1 : ℚ))) := by
  have h := C6_quadrant_partition 3 exM3 1
  have hfin : List.finRange 3 = [0, 1, 2] := by decide
  have ha1 : InfluenceMatrix.activity_scores 3 exM3 1 = 2 := by decide
  have hcol : InfluenceMatrix.activity_column 3 exM3 = [1, 2, 3] := by
    rw [InfluenceMatrix.activity_column, hfin]
    norm_num [List.map_cons]
    refine ⟨by decide, by decide, by decide⟩
  have hmed : InfluenceMatrix.median_activity 3 exM3 = 2 := by
    rw [InfluenceMatrix.median_activity, hcol]
    norm_num [InfluenceMatrix.pandasMedian, InfluenceMatrix.sortAsc,
      InfluenceMatrix.insertAsc]
  exact ⟨h.1, h.2.1 (by rw [hmed, ha1]; norm_num)⟩

/-- C7: the matrix produced by `create_influence_matrix_input`
(src/influence_matrix.py) is square over the common indicators (its index
type), every entry is one of the selectbox options -2..2, every diagonal
entry is 0, and the result does not depend on any previously loaded
matrix. -/
theorem C7_matrix_entry_invariants (n : ℕ)
    (e1 e2 : Option (Fin n → Fin n → ℤ))
    (sel : Fin n → Fin n → Fin 5) (i j : Fin n) :
    InfluenceMatrix.create_influence_matrix_input n e1 sel i i = 0
    ∧ InfluenceMatrix.create_influence_matrix_input n e1 sel i j
        ∈ InfluenceMatrix.option_values
    ∧ InfluenceMatrix.create_influence_matrix_input n e1 sel
        = InfluenceMatrix.create_influence_matrix_input n e2 sel := by
  refine ⟨by simp [InfluenceMatrix.create_influence_matrix_input], ?_, rfl⟩
  rw [InfluenceMatrix.create_influence_matrix_input]
  by_cases h : i = j
  · simp [h, InfluenceMatrix.option_values]
  · simp only [if_neg h]
    rcases hsel : sel i j with ⟨k, hk⟩
    interval_cases k <;> simp [InfluenceMatrix.option_values]

/-- C8: a missing data file is treated as an empty dataset: loading custom
indicators without the CSV file returns the empty table
(`load_custom_indicators_data`, src/custom_indicators.py), and loading the
influence matrix without its file returns the no-matrix sentinel rather
than an error (`load_influence_matrix`, src/influence_matrix.py), which the
matrix-entry initialization then treats as the all-zero matrix. -/
theorem C8_missing_file_is_empty_dataset (n : ℕ) :
    CustomIndicators.load_custom_indicators_data none
        = ([] : List CustomIndicators.Entry)
    ∧ InfluenceMatrix.load_influence_matrix n none = none
    ∧ InfluenceMatrix.initial_matrix n (InfluenceMatrix.load_influence_matrix n none)
        = fun _ _ => (0 : ℤ) := by
  exact ⟨rfl, rfl, rfl⟩

/-- C9 counterexample: a submission with a fresh indicator name but a blank
description is rejected (the store is not extended) even though no
indicator of that name exists for the city, refuting the claimed
"fails only if a duplicate name exists". -/
theorem C9_counterexample :
    CustomIndicators.submit_indicator [] "Paris" "France" "GDP" "" 1 "USD" "UN" "Economic"
      = Except.error CustomIndicators.SubmitError.missingFields
    ∧ CustomIndicators.city_indicators [] "Paris" = [] := by
  constructor
  · rw [CustomIndicators.submit_indicator, if_pos (Or.inr (Or.inl (by decide)))]
  · rfl

/-- C9 amended: a submission is rejected with an error exactly when a
required text field (name, description, unit or source) is blank after
stripping, or when the raw submitted name already occurs among the names
stored for that city; otherwise the stripped entry is appended.  Uniqueness
is still enforced only within a city: the duplicate test only inspects the
submitted city's rows. -/
theorem C9_submit_error_iff (store : List CustomIndicators.Entry)
    (city country name description : String) (value : ℚ)
    (unit source category : String) :
    ((∃ err, CustomIndicators.submit_indicator store city country name
        description value unit source category = .error err)
      ↔ (CustomIndicators.pyStrip name = ""
          ∨ CustomIndicators.pyStrip description = ""
          ∨ CustomIndicators.pyStrip unit = ""
          ∨ CustomIndicators.pyStrip source = ""
          ∨ ∃ e ∈ CustomIndicators.city_indicators store city,
              e.Indicator_Name = name))
    ∧ (¬(CustomIndicators.pyStrip name = ""
          ∨ CustomIndicators.pyStrip description = ""
          ∨ CustomIndicators.pyStrip unit = ""
          ∨ CustomIndicators.pyStrip source = "") →
       ¬(∃ e ∈ CustomIndicators.city_indicators store city,
            e.Indicator_Name = name) →
       CustomIndicators.submit_indicator store city country name description
           value unit source category
         = .ok (store ++ [⟨city, country, CustomIndicators.pyStrip name,
             CustomIndicators.pyStrip description, value,
             CustomIndicators.pyStrip unit, CustomIndicators.pyStrip source,
             category⟩])) := by
  rw [CustomIndicators.submit_indicator]
  split_ifs with h1 h2
  · constructor
    · constructor
      · intro _
        tauto
      · intro _
        exact ⟨.missingFields, rfl⟩
    · intro hb _
      exact absurd h1 hb
  · have hd : ∃ e ∈ CustomIndicators.city_indicators store city,
        e.Indicator_Name = name := by
      simpa [List.any_eq_true] using h2
    constructor
    · constructor
      · intro _
        tauto
      · intro _
        exact ⟨.duplicateName, rfl⟩
    · intro _ hdup
      exact absurd hd hdup
  · have hnd : ¬∃ e ∈ CustomIndicators.city_indicators store city,
        e.Indicator_Name = name := by
      simpa [List.any_eq_true] using h2
    constructor
    · constructor
      · rintro ⟨err, herr⟩
        exact absurd herr (by simp)
      · intro hr
        exfalso
        rcases hr with hb | hb | hb | hb | ⟨e, he, hen⟩
        · exact h1 (Or.inl hb)
        · exact h1 (Or.inr (Or.inl hb))
        · exact h1 (Or.inr (Or.inr (Or.inl hb)))
        · exact h1 (Or.inr (Or.inr (Or.inr hb)))
        · exact hnd ⟨e, he, hen⟩
    · intro _ _
      rfl

/-- Witness for C9 amended: submitting the name GDP for Paris succeeds even
though Lyon already has an indicator named GDP, with both hypotheses
discharged by evaluation. -/
theorem C9_witness :
    CustomIndicators.submit_indicator exStore "Paris" "France" "GDP" "gdp of Paris"
        2 "USD" "UN" "Economic"
      = .ok (exStore ++ [⟨"Paris", "France", "GDP", "gdp of Paris", 2,
          "USD", "UN", "Economic"⟩]) := by
  have h := (C9_submit_error_iff exStore "Paris" "France" "GDP" "gdp of Paris"
    2 "USD" "UN" "Economic").2
  have hb : ¬(CustomIndicators.pyStrip "GDP" = ""
      ∨ CustomIndicators.pyStrip "gdp of Paris" = ""
      ∨ CustomIndicators.pyStrip "USD" = ""
      ∨ CustomIndicators.pyStrip "UN" = "") := by decide
  have hd : ¬(∃ e ∈ CustomIndicators.city_indicators exStore "Paris",
      e.Indicator_Name = "GDP") := by decide
  have e1 : CustomIndicators.pyStrip "GDP" = "GDP" := by decide
  have e2 : CustomIndicators.pyStrip "gdp of Paris" = "gdp of Paris" := by decide
  have e3 : CustomIndicators.pyStrip "USD" = "USD" := by decide
  have e4 : CustomIndicators.pyStrip "UN" = "UN" := by decide
  rw [h hb hd, e1, e2, e3, e4]

/-- C10: in `calculate_weighted_scores` (src/flexible_ranking.py) a city
whose indicators all have weight 0 never enters the `city_scores` dict and
is omitted from the resulting series entirely, while every city with
positive total assigned weight receives the weight-normalized mean
`total_weighted_score / total_weight` over its positive-weight
indicators. -/
theorem C10_weighted_score_membership (data : List IndicatorRow)
    (weights : String → ℚ) (city : String) :
    ((∀ r ∈ FlexibleRanking.city_rows data city, weights r.Indicator_Name = 0) →
      ∀ s, (city, s) ∉ FlexibleRanking.calculate_weighted_scores data weights)
    ∧ (0 < FlexibleRanking.total_weight data weights city →
      (city, FlexibleRanking.total_weighted_score data weights city
           / FlexibleRanking.total_weight data weights city)
        ∈ FlexibleRanking.calculate_weighted_scores data weights) := by
  constructor
  · intro hzero s hmem
    rw [FlexibleRanking.calculate_weighted_scores, mem_sort_values_desc] at hmem
    rcases List.mem_filterMap.mp hmem with ⟨c, _, hcs⟩
    rcases Option.map_eq_some'.mp hcs with ⟨v, hv, heq⟩
    cases heq
    have hrows : FlexibleRanking.positive_weight_rows data weights city = [] := by
      rw [FlexibleRanking.positive_weight_rows, List.filter_eq_nil_iff]
      intro a ha
      simp [hzero a ha]
    rw [FlexibleRanking.city_weighted_score, FlexibleRanking.total_weight,
      hrows] at hv
    simp at hv
  · intro htw
    have hz : FlexibleRanking.positive_weight_rows data weights city ≠ [] := by
      intro hnil
      rw [FlexibleRanking.total_weight, hnil] at htw
      simp at htw
    obtain ⟨r, hr⟩ := List.exists_mem_of_ne_nil _ hz
    have hrc : r ∈ FlexibleRanking.city_rows data city :=
      List.mem_of_mem_filter hr
    have hrdata : r ∈ data ∧ r.City = city := by
      have hmf := List.mem_filter.mp hrc
      exact ⟨hmf.1, by simpa using hmf.2⟩
    have hcity : city ∈ FlexibleRanking.unique_cities data := by
      rw [mem_unique_cities, List.mem_map]
      exact ⟨r, hrdata.1, hrdata.2⟩
    rw [FlexibleRanking.calculate_weighted_scores, mem_sort_values_desc]
    apply List.mem_filterMap.mpr
    refine ⟨city, hcity, ?_⟩
    rw [FlexibleRanking.city_weighted_score, if_pos htw]
    rfl

/-- Witness for C10: with all weights 0, city A is absent from the series of
the example table; with all weights 1, city A receives its normalized
weighted mean. -/
theorem C10_witness :
    (∀ s, ("A", s) ∉ FlexibleRanking.calculate_weighted_scores exWData (fun _ => 0))
    ∧ ("A", FlexibleRanking.total_weighted_score exWData (fun _ => 1) "A"
          / FlexibleRanking.total_weight exWData (fun _ => 1) "A")
        ∈ FlexibleRanking.calculate_weighted_scores exWData (fun _ => 1) := by
  have h1 := (C10_weighted_score_membership exWData (fun _ => 0) "A").1
  have h2 := (C10_weighted_score_membership exWData (fun _ => 1) "A").2
  have hba : ("B" : String) ≠ "A" := by decide
  refine ⟨h1 (fun r _ => rfl), h2 ?_⟩
  have hrows : FlexibleRanking.city_rows exWData "A"
      = [⟨"A", "I1", 0⟩, ⟨"A", "I2", 10⟩] := by
    norm_num [FlexibleRanking.city_rows, exWData, List.filter_cons, hba]
  rw [FlexibleRanking.total_weight, FlexibleRanking.positive_weight_rows, hrows]
  norm_num [List.filter_cons]
